import Mathlib

/-!
Shallow embedding of the Btor dialect operation verifiers, parsers and
printers from `lib/Dialect/Btor/IR/BtorOps.cpp`, together with theorems
checking the specification's structural claims against them.

Widths (`unsigned` in the source) are modelled as `Nat`; vector and
buffer shapes (`int64_t` in the source) are modelled as `Int` so that
the `shape & (shape - 1)` power-of-two indicator behaves as in the
source, including at `shape = 0`.  Verifiers return
`Except String Unit`: `Except.error msg` embeds `op.emitOpError() << msg`
followed by a failed `LogicalResult`, and `Except.ok ()` embeds
`success()`.
-/

namespace BtorSpec

/-- The value types handled by the dialect: scalar bit-vectors, the
fixed-shape vector encoding of arrays, and the generic array type. -/
inductive BtorType where
  | bitvec (width : Nat)
  | vector (shape : List Int) (elementWidth : Nat)
  | array (indexWidth : Nat) (elementWidth : Nat)
deriving DecidableEq

/-- `verifySliceOp` from BtorOps.cpp: emits an error when the operand
(source) width is strictly smaller than the result width. -/
def verifySliceOp (srcWidth dstWidth : Nat) : Except String Unit :=
  if srcWidth < dstWidth then
    Except.error ("result type bv" ++ toString dstWidth ++
      " must be smaller or equal to the operand type bv" ++ toString srcWidth)
  else Except.ok ()

/-- `verifyExtOp` from BtorOps.cpp: emits an error when the operand
(source) width is strictly larger than the result width. -/
def verifyExtOp (srcWidth dstWidth : Nat) : Except String Unit :=
  if srcWidth > dstWidth then
    Except.error ("result type bv" ++ toString dstWidth ++
      " must be wider than operand type bv" ++ toString srcWidth)
  else Except.ok ()

/-- `verifyConcatOp` from BtorOps.cpp: the sum of the two operand widths
must equal the result width.  The widths are `unsigned` (32-bit) values
and `auto sumOfTypes = first + second` is an `unsigned` addition, so the
sum wraps modulo `2^32`. -/
def verifyConcatOp (firstWidth secondWidth dstWidth : Nat) : Except String Unit :=
  let sumOfTypes := (firstWidth + secondWidth) % 2^32
  if sumOfTypes ≠ dstWidth then
    Except.error ("sum of bv" ++ toString firstWidth ++ " and bv" ++
      toString secondWidth ++ " must be equal to operand type bv" ++
      toString dstWidth)
  else Except.ok ()

/-- `verifyCmpOp` from BtorOps.cpp: the result must be a bit-vector of
width 1. -/
def verifyCmpOp (resultLength : Nat) : Except String Unit :=
  if resultLength ≠ 1 then
    Except.error ("result must be bit vector of length 1 instead got length of "
      ++ toString resultLength)
  else Except.ok ()

/-- `verifyBooleanOp` from BtorOps.cpp: the result must be a bit-vector
of width 1. -/
def verifyBooleanOp (resultWidth : Nat) : Except String Unit :=
  if resultWidth ≠ 1 then
    Except.error ("result must be bit vector of length 1 instead got length of "
      ++ toString resultWidth)
  else Except.ok ()

/-- `verifyAssertNotOp` from BtorOps.cpp: the single operand `arg` must
be a bit-vector of width 1. -/
def verifyAssertNotOp (argWidth : Nat) : Except String Unit :=
  if argWidth ≠ 1 then
    Except.error ("result must be bit vector of length 1 instead got length of "
      ++ toString argWidth)
  else Except.ok ()

/-- `verifyConstraintOp` from BtorOps.cpp: the single operand
`constraint` must be a bit-vector of width 1. -/
def verifyConstraintOp (constraintWidth : Nat) : Except String Unit :=
  if constraintWidth ≠ 1 then
    Except.error ("result must be bit vector of length 1 instead got length of "
      ++ toString constraintWidth)
  else Except.ok ()

/-- The generic-encoding `InitArrayOp`: `init` operand width and the
array result's element width, as read by `verifyInitArrayOp`. -/
structure InitArrayOp where
  initWidth : Nat
  elementWidth : Nat
deriving DecidableEq

/-- The diagnostic streamed by `verifyInitArrayOp` on a width mismatch:
`op.emitOpError() << "element initWidth of the array must match "
<< " bitwidth of given value: " << initWidth`. -/
def initArrayDiag (initWidth : Nat) : String :=
  "element initWidth of the array must match " ++
    " bitwidth of given value: " ++ toString initWidth

/-- `verifyInitArrayOp` from BtorOps.cpp: the init value's width must
equal the array's element width. -/
def verifyInitArrayOp (op : InitArrayOp) : Except String Unit :=
  if op.elementWidth ≠ op.initWidth then
    Except.error (initArrayDiag op.initWidth)
  else Except.ok ()

/-- The low 64 bits of an integer, i.e. its two's-complement `int64_t`
representation read as an unsigned value. -/
def toUInt64bits (x : Int) : Nat := (x % ((2:Int)^64)).toNat

/-- Reinterpret an unsigned 64-bit value as a signed `int64_t`. -/
def ofUInt64bits (n : Nat) : Int :=
  if n < 2^63 then (n : Int) else (n : Int) - 2^64

/-- Bitwise AND of two natural numbers, computed over the given number
of low-order bit positions (structural recursion on the fuel so that it
evaluates inside the kernel). -/
def natAndBits : Nat → Nat → Nat → Nat
  | 0, _, _ => 0
  | f + 1, m, n => (m % 2) * (n % 2) + 2 * natAndBits f (m / 2) (n / 2)

/-- The C `&` operator on `int64_t` operands: bitwise AND of the 64-bit
two's-complement representations. -/
def and64 (a b : Int) : Int :=
  ofUInt64bits (natAndBits 64 (toUInt64bits a) (toUInt64bits b))

/-- The `shape & (shape - 1)` indicator computed by the vector/memref
verifiers; `shape` is an `int64_t` in the source, so subtraction and AND
are 64-bit operations (in particular `0 - 1` is `-1`, all bits set). -/
def shapeIndicator (shape : Int) : Int :=
  and64 shape (shape - 1)

/-- The shape diagnostic streamed by the vector/memref verifiers. -/
def shapeDiag (shape : Int) : String :=
  "given shape: " ++ toString shape ++ " has to be a power of two"

/-- A vector-encoded `InitArrayOp`: the init operand width, and the
element width and shape list of the `VectorType` result. -/
structure VectorInitArrayOp where
  initWidth : Nat
  elementWidth : Nat
  shape : List Int
deriving DecidableEq

/-- `verifyVectorInitArrayOp` from BtorOps.cpp: element width must match
the init width, the shape list must have exactly one entry, and that
entry must satisfy `shape & (shape - 1) == 0`. -/
def verifyVectorInitArrayOp (op : VectorInitArrayOp) : Except String Unit :=
  if op.elementWidth ≠ op.initWidth then
    Except.error ("element type of the array must match " ++
      " bitwidth of given value: " ++ toString op.initWidth)
  else if op.shape.length ≠ 1 then
    Except.error "provide only one shape attribute "
  else
    let shape := op.shape.headD 0
    let indicator := shapeIndicator shape
    if indicator ≠ 0 then Except.error (shapeDiag shape)
    else Except.ok ()

/-- A vector-encoded `ReadOp`: the result width, and the element width
and shape list of the `VectorType` base. -/
structure VectorReadOp where
  resultWidth : Nat
  elementWidth : Nat
  shape : List Int
deriving DecidableEq

/-- `verifyVectorReadOp` from BtorOps.cpp: element width must match the
result width, the shape list must have exactly one entry, and that entry
must satisfy `shape & (shape - 1) == 0`. -/
def verifyVectorReadOp (op : VectorReadOp) : Except String Unit :=
  if op.elementWidth ≠ op.resultWidth then
    Except.error ("element type of the array must match " ++
      " bitwidth of return type: " ++ toString op.resultWidth)
  else if op.shape.length ≠ 1 then
    Except.error "provide only one shape attribute "
  else
    let shape := op.shape.headD 0
    let indicator := shapeIndicator shape
    if indicator ≠ 0 then Except.error (shapeDiag shape)
    else Except.ok ()

/-- A vector-encoded `WriteOp`: the value operand width, and the element
width and shape list of the `VectorType` result. -/
structure VectorWriteOp where
  valueWidth : Nat
  elementWidth : Nat
  shape : List Int
deriving DecidableEq

/-- `verifyVectorWriteOp` from BtorOps.cpp: element width must match the
value width.  (The source performs no shape check for vector writes.) -/
def verifyVectorWriteOp (op : VectorWriteOp) : Except String Unit :=
  if op.elementWidth ≠ op.valueWidth then
    Except.error ("element type of the array must match " ++
      " bitwidth of given value: " ++ toString op.valueWidth)
  else Except.ok ()

/-- A buffer-encoded (`MemRefType`) `InitArrayOp`; the verifier reads no
field (its whole body is commented out in the source). -/
structure MemRefInitArrayOp where
  shape : List Int
deriving DecidableEq

/-- `verifyMemRefInitArrayOp` from BtorOps.cpp: every check in its body
is commented out; it returns `success()` unconditionally. -/
def verifyMemRefInitArrayOp (_op : MemRefInitArrayOp) : Except String Unit :=
  Except.ok ()

/-- A buffer-encoded (`MemRefType`) `ReadOp`: result width, and the
element width and shape list of the `MemRefType` base. -/
structure MemRefReadOp where
  resultWidth : Nat
  elementWidth : Nat
  shape : List Int
deriving DecidableEq

/-- `verifyMemRefReadOp` from BtorOps.cpp: element width must match the
result width, the shape list must have exactly one entry, and that entry
must satisfy `shape & (shape - 1) == 0`. -/
def verifyMemRefReadOp (op : MemRefReadOp) : Except String Unit :=
  if op.elementWidth ≠ op.resultWidth then
    Except.error ("element type of the array must match " ++
      " bitwidth of return type: " ++ toString op.resultWidth)
  else if op.shape.length ≠ 1 then
    Except.error "provide only one shape attribute "
  else
    let shape := op.shape.headD 0
    let indicator := shapeIndicator shape
    if indicator ≠ 0 then Except.error (shapeDiag shape)
    else Except.ok ()

/-- A buffer-encoded (`MemRefType`) `WriteOp`: value width, and the
element width and shape list of the `MemRefType` result. -/
structure MemRefWriteOp where
  valueWidth : Nat
  elementWidth : Nat
  shape : List Int
deriving DecidableEq

/-- `verifyMemRefWriteOp` from BtorOps.cpp: element width must match the
value width.  (The source performs no shape check for memref writes.) -/
def verifyMemRefWriteOp (op : MemRefWriteOp) : Except String Unit :=
  if op.elementWidth ≠ op.valueWidth then
    Except.error ("element type of the array must match " ++
      " bitwidth of given value: " ++ toString op.valueWidth)
  else Except.ok ()

/-- Decidable substring test used to inspect diagnostic text: does
`needle` occur contiguously inside `haystack`? -/
def strContains (haystack needle : String) : Bool :=
  (List.range (haystack.toList.length + 1)).any fun i =>
    needle.toList.isPrefixOf (haystack.toList.drop i)

/-- An attribute value: a literal together with the bit width of its
integer type (the payload of `mlir::IntegerAttr` as used here). -/
structure BtorAttr where
  litValue : Int
  litWidth : Nat
deriving DecidableEq

/-- A `ConstantOp`: a zero-operand operation holding its literal value
attribute. -/
structure ConstantOp where
  valueAttr : BtorAttr
deriving DecidableEq

/-- `ConstantOp::fold` from BtorOps.cpp: asserts the operand list is
empty (an internal precondition) and returns the stored `value()`
attribute; a returned attribute is a successful `OpFoldResult`. -/
def ConstantOp.fold (op : ConstantOp) (_operands : List BtorAttr) :
    Option BtorAttr :=
  some op.valueAttr

/-- An SSA environment: the declared type of each operand name, as
consulted by `resolveOperands` (which fails on a type mismatch). -/
def SsaEnv : Type := String → Option BtorType

/-- `parseBinaryOverflowOp` from BtorOps.cpp: parses exactly two
operands and one operand type after the colon, unconditionally adds a
width-1 bit-vector result type, then resolves both operands against the
operand type.  Returns `(operand types, result types)` of the built
operation state. -/
def parseBinaryOverflowOp (env : SsaEnv) (operands : List String)
    (operandType : BtorType) : Option (List BtorType × List BtorType) :=
  match operands with
  | [a, b] =>
    if env a = some operandType ∧ env b = some operandType then
      some ([operandType, operandType], [BtorType.bitvec 1])
    else none
  | _ => none

/-- An `IteOp`: three operand names with the condition type and the
result type (true and false operands share the result type). -/
structure IteOp where
  condition : String
  trueValue : String
  falseValue : String
  conditionType : BtorType
  resultType : BtorType
deriving DecidableEq

/-- The textual form of an `IteOp`: the printed operand names and the
list of types after the colon (one type, or condition and result types
separated by a comma). -/
structure IteText where
  operands : List String
  colonTypes : List BtorType
deriving DecidableEq

/-- `printIteOp` from BtorOps.cpp: emits the operand list, a colon, and
only `op->getType()` — the result type; the condition type is never
printed. -/
def printIteOp (op : IteOp) : IteText :=
  { operands := [op.condition, op.trueValue, op.falseValue],
    colonTypes := [op.resultType] }

/-- `parseIteOp` from BtorOps.cpp: parses three operands and a type; if
a comma and a second type follow, the first type is the condition type
and the second the result type, otherwise the condition type defaults to
a width-1 bit-vector.  `resolveOperands` then checks each operand's
declared type against the expected one. -/
def parseIteOp (env : SsaEnv) (txt : IteText) : Option IteOp :=
  match txt.operands, txt.colonTypes with
  | [c, tv, fv], [t] =>
    if env c = some (BtorType.bitvec 1) ∧ env tv = some t ∧ env fv = some t
    then some ⟨c, tv, fv, BtorType.bitvec 1, t⟩
    else none
  | [c, tv, fv], [t1, t2] =>
    if env c = some t1 ∧ env tv = some t2 ∧ env fv = some t2
    then some ⟨c, tv, fv, t1, t2⟩
    else none
  | _, _ => none

/-- An `IteOp` is well formed in an environment when each operand's
declared type is the type the operation expects. -/
def iteWellFormed (env : SsaEnv) (op : IteOp) : Prop :=
  env op.condition = some op.conditionType ∧
  env op.trueValue = some op.resultType ∧
  env op.falseValue = some op.resultType

/-- Environment for a masked (wide-condition) `IteOp`: condition `c` of
width 4, value operands `t` and `f` of width 8. -/
def maskedIteEnv : SsaEnv := fun s =>
  if s = "c" then some (BtorType.bitvec 4)
  else if s = "t" ∨ s = "f" then some (BtorType.bitvec 8)
  else none

/-- A masked `IteOp`: width-4 condition selecting over width-8
operands. -/
def maskedIteOp : IteOp :=
  ⟨"c", "t", "f", BtorType.bitvec 4, BtorType.bitvec 8⟩

/-- Environment for `parseBinaryOverflowOp`: two width-32 operands. -/
def overflowEnv : SsaEnv := fun s =>
  if s = "a" ∨ s = "b" then some (BtorType.bitvec 32) else none

/-- C1 counterexample: contrary to the claim, a vector-encoded write
over declared length 3 passes verification (the shape is never
inspected), and so do the buffer (MemRef) init and write operations. -/
theorem shape3_write_and_memref_init_accepted :
    verifyVectorWriteOp ⟨8, 8, [3]⟩ = Except.ok () ∧
    verifyMemRefInitArrayOp ⟨[3]⟩ = Except.ok () ∧
    verifyMemRefWriteOp ⟨8, 8, [3]⟩ = Except.ok () :=
  ⟨rfl, rfl, rfl⟩

/-- C1 (amended): the power-of-two shape check is enforced exactly by
VectorInitArrayOp, VectorReadOp and MemRefReadOp verification — with
matching widths each succeeds iff `shape & (shape - 1) == 0`, so length
3 fails and length 4 succeeds there — while VectorWriteOp,
MemRefInitArrayOp and MemRefWriteOp verification never inspects the
shape and accepts any length. -/
theorem arrayShapeCheck_by_encoding (w : Nat) (s : Int) :
    (verifyVectorInitArrayOp ⟨w, w, [s]⟩ = Except.ok () ↔ shapeIndicator s = 0) ∧
    (verifyVectorReadOp ⟨w, w, [s]⟩ = Except.ok () ↔ shapeIndicator s = 0) ∧
    (verifyMemRefReadOp ⟨w, w, [s]⟩ = Except.ok () ↔ shapeIndicator s = 0) ∧
    verifyVectorWriteOp ⟨w, w, [s]⟩ = Except.ok () ∧
    verifyMemRefInitArrayOp ⟨[s]⟩ = Except.ok () ∧
    verifyMemRefWriteOp ⟨w, w, [s]⟩ = Except.ok () ∧
    shapeIndicator 3 ≠ 0 ∧ shapeIndicator 4 = 0 := by
  refine ⟨?_, ?_, ?_, ?_, ?_, ?_, by decide, by decide⟩ <;>
    simp only [verifyVectorInitArrayOp, verifyVectorReadOp, verifyMemRefReadOp,
      verifyVectorWriteOp, verifyMemRefInitArrayOp, verifyMemRefWriteOp,
      List.length_cons, List.length_nil, List.headD, ne_eq, not_true_eq_false,
      if_false] <;>
    simp

/-- C2 counterexample: for an 8-bit init value against element width 16,
`verifyInitArrayOp` fails as claimed, but the emitted diagnostic names
only the init value's width 8; the element width 16 appears nowhere in
it. -/
theorem initArrayDiag_lacks_element_width :
    verifyInitArrayOp ⟨8, 16⟩ = Except.error (initArrayDiag 8) ∧
    strContains (initArrayDiag 8) "8" = true ∧
    strContains (initArrayDiag 8) "16" = false :=
  ⟨rfl, by decide, by decide⟩

/-- C2 (amended): `verifyInitArrayOp` succeeds iff the init value's
width equals the array's element width, and on a mismatch its diagnostic
names only the init value's width. -/
theorem verifyInitArrayOp_width_agreement (op : InitArrayOp) :
    (verifyInitArrayOp op = Except.ok () ↔ op.elementWidth = op.initWidth) ∧
    (op.elementWidth ≠ op.initWidth →
      verifyInitArrayOp op = Except.error (initArrayDiag op.initWidth)) := by
  constructor
  · simp only [verifyInitArrayOp]
    split <;> simp_all
  · intro h
    simp [verifyInitArrayOp, h]

/-- C2 witness: the amended statement at init width 8, element width
16. -/
theorem verifyInitArrayOp_width_agreement_witness :
    verifyInitArrayOp ⟨8, 16⟩ = Except.error (initArrayDiag 8) :=
  (verifyInitArrayOp_width_agreement ⟨8, 16⟩).2 (by decide)

/-- C3: the round-trip law fails for a masked `IteOp`. The printer
emits only the result type, so the printed form of a well-formed IteOp
with a width-4 condition parses to `none` (the parser defaults the
condition type to width 1 and operand resolution fails), even though the
parser accepts the two-type form and reconstructs exactly this
operation from it. -/
theorem printIteOp_drops_masked_condition_type :
    iteWellFormed maskedIteEnv maskedIteOp ∧
    printIteOp maskedIteOp =
      { operands := ["c", "t", "f"], colonTypes := [BtorType.bitvec 8] } ∧
    parseIteOp maskedIteEnv (printIteOp maskedIteOp) = none ∧
    parseIteOp maskedIteEnv
        { operands := ["c", "t", "f"],
          colonTypes := [BtorType.bitvec 4, BtorType.bitvec 8] } =
      some maskedIteOp :=
  ⟨⟨rfl, rfl, rfl⟩, rfl, rfl, rfl⟩

/-- C4 counterexample: at operand widths `2^31` and `2^31 + 1` with
result width 1, `verifyConcatOp` succeeds — the `unsigned` sum wraps to
1 — although the exact sum of the operand widths is not 1. -/
theorem concat_wrapped_sum_accepted :
    verifyConcatOp (2^31) (2^31 + 1) 1 = Except.ok () ∧
    2^31 + (2^31 + 1) ≠ 1 :=
  ⟨rfl, by decide⟩

/-- C4 (amended): `verifyConcatOp` succeeds iff the result width equals
the sum of the two operand widths reduced modulo `2^32` (the `unsigned`
wrap of the source's sum); when that sum stays below `2^32` this is the
exact sum, but a wrapped sum is also accepted. -/
theorem verifyConcatOp_sum_mod32 (firstWidth secondWidth dstWidth : Nat) :
    verifyConcatOp firstWidth secondWidth dstWidth = Except.ok () ↔
      dstWidth = (firstWidth + secondWidth) % 2^32 := by
  simp only [verifyConcatOp]
  split <;> simp_all [eq_comm]

/-- C5: `verifyExtOp` succeeds iff the result width is at least the
source operand's width (equal widths accepted). -/
theorem verifyExtOp_result_geq_source (srcWidth dstWidth : Nat) :
    verifyExtOp srcWidth dstWidth = Except.ok () ↔ srcWidth ≤ dstWidth := by
  simp only [verifyExtOp]
  split <;> simp_all

/-- C6: `verifySliceOp` succeeds iff the result width is at most the
source operand's width (equal widths accepted). -/
theorem verifySliceOp_result_leq_source (srcWidth dstWidth : Nat) :
    verifySliceOp srcWidth dstWidth = Except.ok () ↔ dstWidth ≤ srcWidth := by
  simp only [verifySliceOp]
  split <;> simp_all

/-- C7: whenever `parseBinaryOverflowOp` succeeds — whatever the shared
operand type — the built operation's result types are exactly one
width-1 bit-vector. -/
theorem parseBinaryOverflowOp_result_bv1 (env : SsaEnv)
    (operands : List String) (operandType : BtorType)
    (st : List BtorType × List BtorType)
    (h : parseBinaryOverflowOp env operands operandType = some st) :
    st.2 = [BtorType.bitvec 1] := by
  rcases operands with _ | ⟨a, _ | ⟨b, _ | ⟨c, rest⟩⟩⟩
  · exact Option.noConfusion h
  · exact Option.noConfusion h
  · simp only [parseBinaryOverflowOp] at h
    split at h
    · cases h
      rfl
    · simp at h
  · exact Option.noConfusion h

/-- C7 witness: two width-32 operands parse successfully and the result
type list is one width-1 bit-vector. -/
theorem parseBinaryOverflowOp_result_bv1_witness :
    parseBinaryOverflowOp overflowEnv ["a", "b"] (BtorType.bitvec 32) =
      some ([BtorType.bitvec 32, BtorType.bitvec 32], [BtorType.bitvec 1]) ∧
    ([BtorType.bitvec 32, BtorType.bitvec 32],
      [BtorType.bitvec 1]).2 = [BtorType.bitvec 1] :=
  ⟨rfl, parseBinaryOverflowOp_result_bv1 overflowEnv ["a", "b"]
    (BtorType.bitvec 32) _ rfl⟩

/-- C8: the comparison and boolean verifiers succeed iff the result
width is 1, and the AssertNot and Constraint verifiers succeed iff the
single operand's width is 1. -/
theorem booleanFamily_width_one (w : Nat) :
    (verifyCmpOp w = Except.ok () ↔ w = 1) ∧
    (verifyBooleanOp w = Except.ok () ↔ w = 1) ∧
    (verifyAssertNotOp w = Except.ok () ↔ w = 1) ∧
    (verifyConstraintOp w = Except.ok () ↔ w = 1) := by
  refine ⟨?_, ?_, ?_, ?_⟩ <;>
    simp only [verifyCmpOp, verifyBooleanOp, verifyAssertNotOp,
      verifyConstraintOp] <;>
    split <;> simp_all

/-- C9: under the zero-operand precondition, `ConstantOp::fold` always
succeeds and returns exactly the stored literal value attribute. -/
theorem constantOp_fold_returns_value (op : ConstantOp)
    (operands : List BtorAttr) (_h : operands = []) :
    op.fold operands = some op.valueAttr :=
  rfl

/-- C9 witness: folding a concrete constant with the empty operand
list. -/
theorem constantOp_fold_returns_value_witness :
    ConstantOp.fold ⟨⟨5, 8⟩⟩ [] = some ⟨5, 8⟩ :=
  constantOp_fold_returns_value ⟨⟨5, 8⟩⟩ [] rfl

/-- C10: a declared length of 0 passes the power-of-two shape check —
`0 & (0 - 1) == 0` over `int64_t` — so VectorInitArrayOp, VectorReadOp
and MemRefReadOp verification all accept a length-0 array, although no
power of two equals 0. -/
theorem zeroShape_passes_powerOfTwoCheck :
    shapeIndicator 0 = 0 ∧
    verifyVectorInitArrayOp ⟨8, 8, [0]⟩ = Except.ok () ∧
    verifyVectorReadOp ⟨8, 8, [0]⟩ = Except.ok () ∧
    verifyMemRefReadOp ⟨8, 8, [0]⟩ = Except.ok () ∧
    ∀ k : Nat, (2 : Int) ^ k ≠ 0 :=
  ⟨by decide, rfl, rfl, rfl, fun k => pow_ne_zero k two_ne_zero⟩

end BtorSpec
